import Mathlib

/-!
Verification of the event-driven dispatch and workflow orchestration layer of
the cdk-quilt-fargate repository.

The embedding follows `lib/cdk-quilt-fargate-stack.ts` (the revision in
`src/unnamed/part_000`, with the earlier revision `src/unnamed/part_001` also
modelled where a claim refers to it):
  - `countPlaceholders` embeds the placeholder count
    `(path.match(/{[^}]+}/g) || []).length` performed by `addRule`;
  - `addRule` embeds the validation and rule construction of the private
    `addRule` method;
  - `getters`, `createPackageQuery`, `createEventBridgeRuleSpecs` embed the
    reference configuration built by `createEventBridgeRules`;
  - `Chain.start` / `Chain.next` / `createStateMachines` embed the Step
    Functions chain built by `createStateMachines`.
Operations that the specification describes but that live outside this
repository's sources (EventBridge rule lookup and target resolution, Step
Functions execution semantics, the SNS message formatting at runtime, and the
registry `list()` operation) are modelled from the spec; each such definition
says so in its doc comment.
-/

namespace CdkQuiltFargate

/-- Scanner state for the placeholder regex `\x7b[^\x7d]+\x7d`:
either outside any candidate match, or just after an opening brace with no
body character yet, or inside a body of at least one non-closing-brace
character. -/
inductive ScanState
  | outside
  | justOpened
  | inBody
deriving DecidableEq

/-- Embeds the JavaScript count `(path.match(/{[^}]+}/g) || []).length` from
`addRule`, as a left-to-right scan: an opening brace starts a candidate; a
candidate with at least one body character (any character other than the
closing brace) that reaches a closing brace is one match, and scanning resumes
after it; a closing brace immediately after the opening brace aborts the
candidate without a match, exactly as the regex engine restarts at the next
position. -/
def countPlaceholdersAux : ScanState → List Char → Nat
  | _, [] => 0
  | .outside, c :: rest =>
      countPlaceholdersAux (if c = '{' then .justOpened else .outside) rest
  | .justOpened, c :: rest =>
      if c = '}' then countPlaceholdersAux .outside rest
      else countPlaceholdersAux .inBody rest
  | .inBody, c :: rest =>
      if c = '}' then 1 + countPlaceholdersAux .outside rest
      else countPlaceholdersAux .inBody rest

/-- Number of path-parameter placeholders in a path template, as counted by
`addRule` (`src/unnamed/part_000` line 513, `src/unnamed/part_001` line 480). -/
def countPlaceholders (path : String) : Nat :=
  countPlaceholdersAux .outside path.data

/-- A registered dispatch rule: the data carried by one EventBridge rule with
an API Gateway target, as constructed in `addRule`.  The lookup key is the
pair (`eventSource`, `ruleName`), matching the rule's
`eventPattern: \x7bsource: [this.eventSource], detailType: [ruleName]\x7d`. -/
structure DispatchRule where
  ruleName : String
  method : String
  path : String
  queryParams : List (String × String)
  pathParams : List String
  eventSource : String
deriving DecidableEq

/-- The error text thrown by `addRule` on a placeholder-count mismatch. -/
def ruleCountError (path : String) (expected given : Nat) : String :=
  "Path '" ++ path ++ "' has " ++ toString expected ++
    " parameters but " ++ toString given ++ " values were provided"

/-- Embeds the private `addRule` method (`src/unnamed/part_000` lines
504-541): count the placeholders in `path`, throw when the count differs from
the number of provided path-parameter values, and otherwise construct the rule
(an absent `pathParams` argument in TypeScript is the empty list here, as
`pathParams?.length || 0` treats it). -/
def addRule (eventSource ruleName method path : String)
    (queryParams : List (String × String)) (pathParams : List String) :
    Except String DispatchRule :=
  if countPlaceholders path ≠ pathParams.length then
    .error (ruleCountError path (countPlaceholders path) pathParams.length)
  else
    .ok ⟨ruleName, method, path, queryParams, pathParams, eventSource⟩

/-- Modelled from the spec: the registry `lookup(eventSource, eventType)`
operation of section 4.2.  The repository only declares each rule's exact
event pattern (`source: [this.eventSource], detailType: [ruleName]`); the
matching itself is performed by EventBridge outside this repository, so it is
modelled as the spec describes it: exact, case-sensitive key equality with no
fallback. -/
def lookupRule (reg : List DispatchRule) (source type : String) :
    Option DispatchRule :=
  reg.find? (fun r => decide (r.eventSource = source ∧ r.ruleName = type))

/-- Modelled from the spec: the error reported when a rule key is already
registered.  Section 4.2 mandates an explicit duplicate policy and recommends
rejection; the repository itself leaves the duplicate check to the CDK
construct tree, which is outside these sources. -/
def duplicateRuleError (ruleName : String) : String :=
  "A rule with key '" ++ ruleName ++ "' is already registered"

/-- The arguments of one `addRule` call: the per-rule configuration. -/
structure RuleSpec where
  ruleName : String
  method : String
  path : String
  queryParams : List (String × String)
  pathParams : List String
deriving DecidableEq

/-- One registration step against a registry: validate and build the rule via
`addRule` (from the source), then insert it unless its key is already present
(duplicate rejection modelled from the spec, section 4.2). -/
def registerRule (eventSource : String) (reg : List DispatchRule)
    (s : RuleSpec) : Except String (List DispatchRule) :=
  match addRule eventSource s.ruleName s.method s.path s.queryParams
      s.pathParams with
  | .error e => .error e
  | .ok r =>
      match lookupRule reg eventSource s.ruleName with
      | some _ => .error (duplicateRuleError s.ruleName)
      | none => .ok (reg ++ [r])

/-- Registry population, embedding the sequential `addRule` calls of
`createEventBridgeRules`: registrations run in order, and a thrown
registration error aborts the remaining calls (TypeScript exception
propagation), leaving the rules registered so far in place.  Returns the
resulting registry together with the first registration error, if any. -/
def populateRules (eventSource : String) (reg : List DispatchRule) :
    List RuleSpec → List DispatchRule × Option String
  | [] => (reg, none)
  | s :: rest =>
      match registerRule eventSource reg s with
      | .ok reg2 => populateRules eventSource reg2 rest
      | .error e => (reg, some e)

/-- Number of registrations that succeed when the given sequence is applied;
registrations after the first failure do not run. -/
def countSuccesses (eventSource : String) (reg : List DispatchRule) :
    List RuleSpec → Nat
  | [] => 0
  | s :: rest =>
      match registerRule eventSource reg s with
      | .ok reg2 => 1 + countSuccesses eventSource reg2 rest
      | .error _ => 0

/-- Modelled from the spec: the registry `list()` operation of section 4.2,
producing the sequence of all registered rules. -/
def listRules (reg : List DispatchRule) : List DispatchRule := reg

/-! ### Event router (spec section 4.3)

The EventBridge target resolution that turns a matched event into an HTTP
call happens inside AWS, outside this repository; it is modelled from the
spec: query-mapping entries and path-parameter values beginning with the
sentinel `$.detail.` are extracted from the event detail, other values are
literals; a derived path-parameter value missing from the detail is a
`MissingPathParameter` error, while a missing query value is simply omitted. -/

/-- Errors of event dispatch (spec section 7). -/
inductive DispatchError
  | NotFound
  | MissingPathParameter
deriving DecidableEq

/-- An inbound event as described in spec section 6: source, type, and an
opaque key-value detail payload (keyed here by the field name that the
dotted path `$.detail.<name>` refers to). -/
structure Event where
  source : String
  type : String
  detail : List (String × String)
deriving DecidableEq

/-- Look up a field of the event detail. -/
def lookupDetail (detail : List (String × String)) (k : String) :
    Option String :=
  (detail.find? (fun kv => decide (kv.1 = k))).map (fun kv => kv.2)

/-- The sentinel marking a value as derived from the event detail, as used by
the reference configuration (`$.detail.s3_folder` and so on). -/
def detailSentinel : String := "$.detail."

/-- Whether the first list is an initial segment of the second. -/
def listStartsWith : List Char → List Char → Bool
  | [], _ => true
  | _ :: _, [] => false
  | p :: ps, c :: cs => p = c && listStartsWith ps cs

/-- Modelled from the spec (section 4.3, step 4): resolve one path-parameter
value; values beginning with the derived sentinel are looked up in the event
detail and fail with `MissingPathParameter` when absent, all other values are
literal. -/
def resolveParamValue (detail : List (String × String)) (v : String) :
    Except DispatchError String :=
  if listStartsWith detailSentinel.data v.data then
    match lookupDetail detail ⟨v.data.drop detailSentinel.data.length⟩ with
    | some s => .ok s
    | none => .error .MissingPathParameter
  else .ok v

/-- Resolve all path-parameter values in order, failing closed on the first
missing derived value (spec section 4.3, step 4). -/
def resolveParams (detail : List (String × String)) :
    List String → Except DispatchError (List String)
  | [] => .ok []
  | v :: vs =>
      match resolveParamValue detail v with
      | .error e => .error e
      | .ok s =>
          match resolveParams detail vs with
          | .error e => .error e
          | .ok ss => .ok (s :: ss)

/-- Modelled from the spec (section 4.3, step 3): resolve the query mapping;
a query value missing from the detail makes that query parameter be omitted,
not an error. -/
def resolveQuery (detail : List (String × String)) :
    List (String × String) → List (String × String)
  | [] => []
  | kv :: rest =>
      match resolveParamValue detail kv.2 with
      | .ok s => (kv.1, s) :: resolveQuery detail rest
      | .error _ => resolveQuery detail rest

/-- Substitute resolved values for the placeholder matches of the path
template, replacing the same `\x7b[^\x7d]+\x7d` matches that
`countPlaceholders` counts, left to right.  The pending accumulator holds the
characters of the currently open candidate match in reverse; a candidate that
fails (empty body, or end of input) is emitted literally. -/
def substPathAux : List Char → List Char → List String → List Char
  | pending, [], _ => pending.reverse
  | pending, c :: rest, vals =>
      if pending.isEmpty then
        if c = '{' then substPathAux [c] rest vals
        else c :: substPathAux [] rest vals
      else
        if c = '}' then
          if pending = ['{'] then
            '{' :: '}' :: substPathAux [] rest vals
          else
            match vals with
            | v :: vs => v.data ++ substPathAux [] rest vs
            | [] => pending.reverse ++ '}' :: substPathAux [] rest []
        else substPathAux (c :: pending) rest vals

/-- The resolved request path: the template with each placeholder replaced by
the corresponding resolved value. -/
def substPath (path : String) (vals : List String) : String :=
  ⟨substPathAux [] path.data vals⟩

/-- The outbound HTTP request issued to the backend (spec section 6). -/
structure HttpCall where
  method : String
  path : String
  query : List (String × String)
deriving DecidableEq

/-- Modelled from the spec (section 4.3): route one event.  Look up the rule
by exact (source, type) key; with no rule the event is unroutable
(`NotFound`); otherwise resolve the path parameters (failing closed on a
missing derived value, with no HTTP call) and the query mapping, and issue
the call. -/
def dispatch (reg : List DispatchRule) (ev : Event) :
    Except DispatchError HttpCall :=
  match lookupRule reg ev.source ev.type with
  | none => .error .NotFound
  | some r =>
      match resolveParams ev.detail r.pathParams with
      | .error e => .error e
      | .ok vals =>
          .ok ⟨r.method, substPath r.path vals,
            resolveQuery ev.detail r.queryParams⟩

/-! ### Reference configuration

`createEventBridgeRules` of `src/unnamed/part_000` (lines 543-567) registers
the CreatePackage rule followed by the three getter rules; the event source
is `quilt.package-engine` (`quilt.` + the project name passed in
`bin/cdk-quilt-fargate.ts`).  The earlier revision `src/unnamed/part_001`
(lines 509-530) registers the three getters first and uses the path
`/registries/\x7b*\x7d/packages` with the single path-parameter value
`"bucket_name"`. -/

/-- The getter table of `src/unnamed/part_000` lines 81-85. -/
def getters : List (String × String) :=
  [("info", "GetInfo"), ("health", "GetHealth"),
   ("test_api_key", "TestApiKey")]

/-- The query mapping of the CreatePackage rule (`src/unnamed/part_000`
lines 547-551). -/
def createPackageQuery : List (String × String) :=
  [("s3_folder", "$.detail.s3_folder"),
   ("package_handle", "$.detail.package_name"),
   ("metadata", "$.detail.metadata")]

/-- The rule registrations performed by `createEventBridgeRules` in
`src/unnamed/part_000`: CreatePackage with the bucket hardcoded as
`udp-spec` and no path-parameter values (the binding to
`$.detail.bucket_name` is commented out in the source), then one GET rule
per getter. -/
def createEventBridgeRuleSpecs : List RuleSpec :=
  ⟨"CreatePackage", "POST", "/registries/udp-spec/packages",
    createPackageQuery, []⟩ ::
  getters.map (fun g => ⟨g.2, "GET", "/" ++ g.1, [], []⟩)

/-- The rule registrations performed by `createEventBridgeRules` in the
earlier revision `src/unnamed/part_001`: the getters, then CreatePackage
with a placeholder path and the literal path-parameter value
`"bucket_name"`. -/
def createEventBridgeRuleSpecsV1 : List RuleSpec :=
  (getters.map (fun g => ⟨g.2, "GET", "/" ++ g.1, [], []⟩)) ++
  [⟨"CreatePackage", "POST", "/registries/{*}/packages",
    createPackageQuery, ["bucket_name"]⟩]

/-- The event source of the deployed stack: `quilt.${projectName}` with
`projectName = "package-engine"`. -/
def referenceEventSource : String := "quilt.package-engine"

/-- The registry produced by the reference configuration of
`src/unnamed/part_000`. -/
def referenceRegistry : List DispatchRule :=
  (populateRules referenceEventSource [] createEventBridgeRuleSpecs).1

/-- The registry produced by the configuration of `src/unnamed/part_001`. -/
def referenceRegistryV1 : List DispatchRule :=
  (populateRules referenceEventSource [] createEventBridgeRuleSpecsV1).1

/-- The CreatePackage rule as registered by `src/unnamed/part_000`. -/
def createPackageRuleConfigured : DispatchRule :=
  ⟨"CreatePackage", "POST", "/registries/udp-spec/packages",
    createPackageQuery, [], referenceEventSource⟩

/-! ### Workflow builder and notification sink (spec sections 4.4 and 4.5)

`createStateMachines` (`src/unnamed/part_000` lines 607-640) builds, for
each getter, a Step Functions chain `sfn.Chain.start(callApiTask)
.next(notifyTopicTask)` whose second task publishes the message
`\x7bDate, ResponseBody, Status Code, Status Text\x7d` read from
`$.apiResult`.  The chain structure is embedded from the source; the
execution semantics of the state machine and the runtime extraction of the
message fields are AWS behaviour outside this repository and are modelled
from the spec. -/

/-- The two stages of a getter workflow. -/
inductive Stage
  | CallBackend
  | PublishNotification
deriving DecidableEq

/-- A workflow chain: the ordered stages, as built by `sfn.Chain`. -/
structure Chain where
  stages : List Stage
deriving DecidableEq

/-- Embeds `sfn.Chain.start`. -/
def Chain.start (s : Stage) : Chain := ⟨[s]⟩

/-- Embeds `Chain.next`: append one stage. -/
def Chain.next (c : Chain) (s : Stage) : Chain := ⟨c.stages ++ [s]⟩

/-- The chain built for every getter:
`sfn.Chain.start(callApiTask).next(notifyTopicTask)`. -/
def getterChain : Chain :=
  (Chain.start .CallBackend).next .PublishNotification

/-- Embeds `createStateMachines`: one state machine per getter, each with the
two-stage chain; the machine is keyed by the getter's event type. -/
def createStateMachines : List (String × Chain) :=
  getters.map (fun g => (g.2, getterChain))

/-- The result captured from the backend call (spec sections 4.4 and 6):
status code, status text, body, and headers mapping a name to a list of
values.  A field the call result does not carry is `none`. -/
structure CallResult where
  statusCode : Option Int
  statusText : Option String
  responseBody : Option String
  headers : List (String × List String)
deriving DecidableEq

/-- The sink adapter's failure (spec section 7). -/
inductive FormatError
  | MalformedResult
deriving DecidableEq

/-- The notification message published to the topic: exactly the four fields
`Date`, `ResponseBody`, `Status Code`, `Status Text` of the SnsPublish task
input. -/
structure NotificationMessage where
  date : String
  responseBody : String
  statusCode : Int
  statusText : String
deriving DecidableEq

/-- Look up a header by name. -/
def lookupHeader (headers : List (String × List String)) (k : String) :
    Option (List String) :=
  (headers.find? (fun h => decide (h.1 = k))).map (fun h => h.2)

/-- Modelled from the spec (section 4.5) and the SnsPublish task input of
`createStateMachines`: build the message from
`$.apiResult.Headers.Date[0]`, `$.apiResult.ResponseBody`,
`$.apiResult.StatusCode` and `$.apiResult.StatusText`; when any of these
fields is absent (no Date header, an empty Date list, or a missing body,
status code or status text) the adapter fails with `MalformedResult` and no
message is produced. -/
def formatMessage (r : CallResult) : Except FormatError NotificationMessage :=
  match lookupHeader r.headers "Date" with
  | none => .error .MalformedResult
  | some [] => .error .MalformedResult
  | some (d :: _) =>
      match r.responseBody, r.statusCode, r.statusText with
      | some b, some sc, some st => .ok ⟨d, b, sc, st⟩
      | _, _, _ => .error .MalformedResult

/-- The execution states of a getter workflow (spec section 4.4): the state
machine `Start → CallBackend → \x7bSuccess → PublishNotification →
Completed; Failure → Failed\x7d`. -/
inductive WfState
  | start
  | callSucceeded (r : CallResult)
  | completed (m : NotificationMessage)
  | failed
deriving DecidableEq

/-- Modelled from the spec (section 4.4): one execution step of the getter
workflow, parametrised by the backend call outcome (`none` means the call
fails).  The backend call runs from the start state; on failure the workflow
is `failed` and nothing else can run.  Publishing runs only from a succeeded
call and completes exactly when the sink adapter accepts the result. -/
inductive WfStep (backend : Option CallResult) : WfState → WfState → Prop
  | callOk (r : CallResult) : backend = some r →
      WfStep backend .start (.callSucceeded r)
  | callFailed : backend = none → WfStep backend .start .failed
  | publishOk (r : CallResult) (m : NotificationMessage) :
      formatMessage r = .ok m →
      WfStep backend (.callSucceeded r) (.completed m)
  | publishFailed (r : CallResult) (e : FormatError) :
      formatMessage r = .error e →
      WfStep backend (.callSucceeded r) .failed

/-! ### Shared lemmas -/

/-- Appending strings appends their character data. -/
theorem string_data_append (a b : String) : (a ++ b).data = a.data ++ b.data :=
  rfl

/-- A string sandwiched between two others is an infix of the
concatenation. -/
theorem string_data_infix_middle (a b c : String) :
    b.data <:+: (a ++ b ++ c).data :=
  ⟨a.data, c.data, by simp [string_data_append]⟩

/-- A successful registration appends exactly one rule. -/
theorem registerRule_ok_length {es : String} {reg reg2 : List DispatchRule}
    {s : RuleSpec} (h : registerRule es reg s = .ok reg2) :
    reg2.length = reg.length + 1 := by
  unfold registerRule at h
  split at h
  · exact absurd h (by simp)
  · split at h
    · exact absurd h (by simp)
    · rw [Except.ok.injEq] at h
      subst h
      simp

/-- Registry population accounting: the resulting registry length is the
initial length plus the number of successful registrations. -/
theorem populateRules_length (es : String) (specs : List RuleSpec) :
    ∀ reg : List DispatchRule,
      ((populateRules es reg specs).1).length =
        reg.length + countSuccesses es reg specs := by
  induction specs with
  | nil => intro reg; simp [populateRules, countSuccesses]
  | cons s rest ih =>
      intro reg
      cases h : registerRule es reg s with
      | ok reg2 =>
          have hlen := registerRule_ok_length h
          simp only [populateRules, countSuccesses, h, ih reg2, hlen]
          omega
      | error e => simp [populateRules, countSuccesses, h]

/-! ### Claims -/

/-- Claim C1: for every path template string and every list of path-parameter
values, `addRule` succeeds if and only if the number of placeholder
occurrences matching `\x7bname\x7d` in the template equals the number of
values; when the counts differ it fails with the error that names both the
expected count (placeholders in the template) and the given count (number of
values), and no rule is registered. -/
theorem addRule_succeeds_iff_placeholder_count (es rn m p : String)
    (q : List (String × String)) (pv : List String) :
    ((addRule es rn m p q pv).isOk ↔ countPlaceholders p = pv.length) ∧
    (countPlaceholders p ≠ pv.length →
      addRule es rn m p q pv =
        .error (ruleCountError p (countPlaceholders p) pv.length) ∧
      (toString (countPlaceholders p)).data <:+:
        (ruleCountError p (countPlaceholders p) pv.length).data ∧
      (toString pv.length).data <:+:
        (ruleCountError p (countPlaceholders p) pv.length).data ∧
      ∀ r, addRule es rn m p q pv ≠ .ok r) := by
  constructor
  · by_cases h : countPlaceholders p = pv.length <;>
      simp [addRule, h, Except.isOk, Except.toBool]
  · intro hne
    refine ⟨by simp [addRule, hne], ?_, ?_, by simp [addRule, hne]⟩
    · have h := string_data_infix_middle
        ("Path '" ++ p ++ "' has ") (toString (countPlaceholders p))
        (" parameters but " ++ toString pv.length ++ " values were provided")
      simpa [ruleCountError, string_data_append, List.append_assoc] using h
    · have h := string_data_infix_middle
        ("Path '" ++ p ++ "' has " ++ toString (countPlaceholders p) ++
          " parameters but ") (toString pv.length) " values were provided"
      simpa [ruleCountError, string_data_append, List.append_assoc] using h

/-- Witness for claim C1, at the spec's own examples: the template
`/registries/\x7bbucket\x7d/packages` with one value succeeds, and with no
values fails with the count-mismatch error. -/
theorem addRule_succeeds_iff_placeholder_count_witness :
    ((addRule "quilt.package-engine" "CreatePackage" "POST"
        "/registries/{bucket}/packages" [] ["my-bucket"]).isOk ↔
      countPlaceholders "/registries/{bucket}/packages" =
        (["my-bucket"] : List String).length) ∧
    (addRule "quilt.package-engine" "CreatePackage" "POST"
        "/registries/{bucket}/packages" [] [] =
      .error (ruleCountError "/registries/{bucket}/packages"
        (countPlaceholders "/registries/{bucket}/packages")
        ([] : List String).length) ∧
      (toString (countPlaceholders "/registries/{bucket}/packages")).data <:+:
        (ruleCountError "/registries/{bucket}/packages"
          (countPlaceholders "/registries/{bucket}/packages")
          ([] : List String).length).data ∧
      (toString ([] : List String).length).data <:+:
        (ruleCountError "/registries/{bucket}/packages"
          (countPlaceholders "/registries/{bucket}/packages")
          ([] : List String).length).data ∧
      ∀ r, addRule "quilt.package-engine" "CreatePackage" "POST"
        "/registries/{bucket}/packages" [] [] ≠ .ok r) :=
  ⟨(addRule_succeeds_iff_placeholder_count "quilt.package-engine"
      "CreatePackage" "POST" "/registries/{bucket}/packages" []
      ["my-bucket"]).1,
   (addRule_succeeds_iff_placeholder_count "quilt.package-engine"
      "CreatePackage" "POST" "/registries/{bucket}/packages" [] []).2
     (by decide)⟩

/-- Claim C10: the validator counts as placeholders only brace pairs with at
least one character other than the closing brace (the pattern
`\x7b[^\x7d]+\x7d`); an empty brace pair is not counted, so prepending one to
any template leaves the count unchanged, and the template consisting of just
an empty brace pair passes validation with an empty value list. -/
theorem empty_brace_pair_not_counted (s : String) :
    countPlaceholders ("\x7b\x7d" ++ s) = countPlaceholders s ∧
    countPlaceholders "\x7b\x7d" = 0 ∧
    (addRule "quilt.package-engine" "EmptyBraces" "GET" "\x7b\x7d" []
      []).isOk = true :=
  ⟨rfl, rfl, rfl⟩

/-- Claim C5: for every registered key and every query key, lookup returns
the registered rule exactly when the query source equals the rule's event
source and the query type equals the rule's event type, as case-sensitive
string equality, and returns no rule (`NotFound`) otherwise; any rule a
lookup returns matches the query key exactly, so there is no wildcard or
case-insensitive fallback. -/
theorem lookupRule_exact_match (r : DispatchRule) (source type : String) :
    (lookupRule [r] source type = some r ↔
      (r.eventSource = source ∧ r.ruleName = type)) ∧
    (lookupRule [r] source type = none ↔
      ¬(r.eventSource = source ∧ r.ruleName = type)) ∧
    (∀ (reg : List DispatchRule) (r' : DispatchRule),
      lookupRule reg source type = some r' →
      r'.eventSource = source ∧ r'.ruleName = type) := by
  refine ⟨?_, ?_, ?_⟩
  · by_cases h : r.eventSource = source ∧ r.ruleName = type <;>
      simp [lookupRule, List.find?, h]
  · by_cases h : r.eventSource = source ∧ r.ruleName = type <;>
      simp [lookupRule, List.find?, h]
  · intro reg r' h
    have hp := List.find?_some h
    simpa using hp

/-- Witness for claim C5, at the spec's own case-sensitivity example: with
the CreatePackage rule registered, querying the key with type
`createpackage` returns nothing. -/
theorem lookupRule_exact_match_witness :
    lookupRule [createPackageRuleConfigured] "quilt.package-engine"
      "createpackage" = none :=
  (lookupRule_exact_match createPackageRuleConfigured "quilt.package-engine"
    "createpackage").2.1.mpr (by decide)

/-- Claim C8: registering a rule under a key already present in the registry
is rejected with an error and never silently overwrites: a registration only
succeeds when the key is absent, success only appends to the existing rules,
and with the key present the registration returns an error and cannot return
a registry. -/
theorem registerRule_rejects_duplicate_key (es : String)
    (reg : List DispatchRule) (s : RuleSpec) :
    (∀ reg', registerRule es reg s = .ok reg' →
      lookupRule reg es s.ruleName = none ∧ reg <+: reg') ∧
    (∀ r₀, lookupRule reg es s.ruleName = some r₀ →
      (∃ e, registerRule es reg s = .error e) ∧
      ∀ reg', registerRule es reg s ≠ .ok reg') := by
  constructor
  · intro reg' h
    unfold registerRule at h
    split at h
    · exact absurd h (by simp)
    · cases hlk : lookupRule reg es s.ruleName with
      | some r0 => rw [hlk] at h; exact absurd h (by simp)
      | none =>
          rw [hlk] at h
          rw [Except.ok.injEq] at h
          subst h
          exact ⟨rfl, ⟨[_], rfl⟩⟩
  · intro r₀ hlk
    cases haddr : addRule es s.ruleName s.method s.path s.queryParams
        s.pathParams with
    | error e =>
        refine ⟨⟨e, ?_⟩, ?_⟩
        · unfold registerRule; rw [haddr]
        · intro reg' h
          unfold registerRule at h
          rw [haddr] at h
          exact absurd h (by simp)
    | ok r =>
        refine ⟨⟨duplicateRuleError s.ruleName, ?_⟩, ?_⟩
        · unfold registerRule; rw [haddr, hlk]
        · intro reg' h
          unfold registerRule at h
          rw [haddr, hlk] at h
          exact absurd h (by simp)

/-- Witness for claim C8: re-registering the GetInfo key against a registry
already holding the GetInfo rule is rejected. -/
theorem registerRule_rejects_duplicate_key_witness :
    (∃ e, registerRule referenceEventSource
      [⟨"GetInfo", "GET", "/info", [], [], referenceEventSource⟩]
      ⟨"GetInfo", "GET", "/info", [], []⟩ = .error e) ∧
    ∀ reg', registerRule referenceEventSource
      [⟨"GetInfo", "GET", "/info", [], [], referenceEventSource⟩]
      ⟨"GetInfo", "GET", "/info", [], []⟩ ≠ .ok reg' :=
  (registerRule_rejects_duplicate_key referenceEventSource
    [⟨"GetInfo", "GET", "/info", [], [], referenceEventSource⟩]
    ⟨"GetInfo", "GET", "/info", [], []⟩).2
    ⟨"GetInfo", "GET", "/info", [], [], referenceEventSource⟩ (by decide)

/-- Claim C9: for every registry produced by a sequence of registrations,
listing the rules twice with no intervening registration returns two equal
sequences, each a finite list whose length is the number of successful
registrations. -/
theorem listRules_twice_equal_and_length (es : String)
    (specs : List RuleSpec) :
    listRules (populateRules es [] specs).1 =
      listRules (populateRules es [] specs).1 ∧
    (listRules (populateRules es [] specs).1).length =
      countSuccesses es [] specs := by
  refine ⟨rfl, ?_⟩
  simpa [listRules] using populateRules_length es specs []

/-- A rule specification whose path-template validation fails: one
placeholder, no values. -/
def badSpec : RuleSpec := ⟨"BadRule", "GET", "/x/{a}", [], []⟩

/-- Counterexample to claim C6: registering GetInfo, then a rule whose
path-template validation fails, then GetHealth leaves a registry holding
only GetInfo — GetHealth is not registered even though its own registration
would have succeeded from that registry, so the failure is not scoped to the
one failing rule. -/
theorem rule_error_scoping_counterexample :
    populateRules referenceEventSource []
      [⟨"GetInfo", "GET", "/info", [], []⟩, badSpec,
       ⟨"GetHealth", "GET", "/health", [], []⟩] =
      ([⟨"GetInfo", "GET", "/info", [], [], referenceEventSource⟩],
       some (ruleCountError "/x/{a}" 1 0)) ∧
    (∀ r ∈ (populateRules referenceEventSource []
      [⟨"GetInfo", "GET", "/info", [], []⟩, badSpec,
       ⟨"GetHealth", "GET", "/health", [], []⟩]).1,
      r.ruleName ≠ "GetHealth") ∧
    registerRule referenceEventSource
      [⟨"GetInfo", "GET", "/info", [], [], referenceEventSource⟩]
      ⟨"GetHealth", "GET", "/health", [], []⟩ =
      .ok [⟨"GetInfo", "GET", "/info", [], [], referenceEventSource⟩,
           ⟨"GetHealth", "GET", "/health", [], [], referenceEventSource⟩] :=
  ⟨rfl, by decide, rfl⟩

/-- Claim C6 as amended: a rule-definition error while registering one rule
aborts registry population at that rule — the rules registered before it are
kept, and the failing rule and all later rules in the sequence are not
registered (the thrown error propagates out of `createEventBridgeRules`). -/
theorem populate_aborts_at_failing_rule (es : String)
    (reg reg' : List DispatchRule) (pre post : List RuleSpec)
    (bad : RuleSpec) (e : String)
    (hpre : populateRules es reg pre = (reg', none))
    (hbad : registerRule es reg' bad = .error e) :
    populateRules es reg (pre ++ bad :: post) = (reg', some e) := by
  induction pre generalizing reg with
  | nil =>
      simp only [populateRules, Prod.mk.injEq] at hpre
      obtain ⟨rfl, -⟩ := hpre
      rw [List.nil_append]
      simp only [populateRules, hbad]
  | cons s rest ih =>
      rw [List.cons_append]
      cases h : registerRule es reg s with
      | ok reg2 =>
          simp only [populateRules, h] at hpre ⊢
          exact ih reg2 hpre
      | error e2 =>
          simp only [populateRules, h, Prod.mk.injEq] at hpre
          exact absurd hpre.2 (by simp)

/-- Witness for the amended claim C6, at the counterexample's input. -/
theorem populate_aborts_at_failing_rule_witness :
    populateRules referenceEventSource []
      ([⟨"GetInfo", "GET", "/info", [], []⟩] ++ badSpec ::
        [⟨"GetHealth", "GET", "/health", [], []⟩]) =
      ([⟨"GetInfo", "GET", "/info", [], [], referenceEventSource⟩],
       some (ruleCountError "/x/{a}" 1 0)) :=
  populate_aborts_at_failing_rule referenceEventSource []
    [⟨"GetInfo", "GET", "/info", [], [], referenceEventSource⟩]
    [⟨"GetInfo", "GET", "/info", [], []⟩]
    [⟨"GetHealth", "GET", "/health", [], []⟩] badSpec
    (ruleCountError "/x/{a}" 1 0) rfl rfl

/-- Claim C7: the reference configuration registers exactly three getter
rules — GetInfo as GET `/info`, GetHealth as GET `/health`, TestApiKey as
GET `/test_api_key` — each with no path-parameter values and no query
mapping; the whole reference registration sequence succeeds. -/
theorem reference_getter_rules :
    (populateRules referenceEventSource [] createEventBridgeRuleSpecs).2 =
      none ∧
    (listRules referenceRegistry).filter
        (fun r => decide (r.method = "GET")) =
      [⟨"GetInfo", "GET", "/info", [], [], referenceEventSource⟩,
       ⟨"GetHealth", "GET", "/health", [], [], referenceEventSource⟩,
       ⟨"TestApiKey", "GET", "/test_api_key", [], [],
         referenceEventSource⟩] :=
  ⟨rfl, rfl⟩

/-- Counterexample to claim C4: in the reference configuration of
`src/unnamed/part_000` the creation rule's path is the hardcoded
`/registries/udp-spec/packages` — no placeholder at all and an empty
path-parameter list, nothing bound to the detail's `bucket_name` — so a
CreatePackage event with an empty detail (no `bucket_name`) dispatches
successfully and an HTTP call is issued, instead of failing with
`MissingPathParameter`; in the earlier revision `src/unnamed/part_001` the
path has a placeholder but its value is the literal string `bucket_name`
(no derived sentinel), so that event also dispatches successfully there. -/
theorem createPackage_rule_hardcoded_counterexample :
    lookupRule referenceRegistry "quilt.package-engine" "CreatePackage" =
      some createPackageRuleConfigured ∧
    createPackageRuleConfigured.path = "/registries/udp-spec/packages" ∧
    countPlaceholders createPackageRuleConfigured.path = 0 ∧
    createPackageRuleConfigured.pathParams = [] ∧
    dispatch referenceRegistry
      ⟨"quilt.package-engine", "CreatePackage", []⟩ =
      .ok ⟨"POST", "/registries/udp-spec/packages", []⟩ ∧
    dispatch referenceRegistryV1
      ⟨"quilt.package-engine", "CreatePackage", []⟩ =
      .ok ⟨"POST", "/registries/bucket_name/packages", []⟩ :=
  ⟨rfl, rfl, rfl, rfl, rfl, rfl⟩

/-- Claim C4 as amended: in the reference configuration the event-driven
creation rule is registered as POST `/registries/udp-spec/packages` with the
bucket segment hardcoded and an empty path-parameter list, so for every
CreatePackage event — in particular one whose detail lacks `bucket_name` —
dispatch succeeds and issues the HTTP call (never `MissingPathParameter`),
with the query mapping resolved from whatever detail fields are present. -/
theorem createPackage_dispatch_hardcoded (detail : List (String × String)) :
    lookupRule referenceRegistry "quilt.package-engine" "CreatePackage" =
      some createPackageRuleConfigured ∧
    createPackageRuleConfigured.pathParams = [] ∧
    dispatch referenceRegistry
      ⟨"quilt.package-engine", "CreatePackage", detail⟩ =
      .ok ⟨"POST", "/registries/udp-spec/packages",
        resolveQuery detail createPackageQuery⟩ :=
  ⟨rfl, rfl, rfl⟩

/-- Claim C2: every getter workflow built by `createStateMachines` is the
two-stage chain CallBackend then PublishNotification; an execution completes
only if the backend call succeeded, when the backend call fails every
reachable state is the start or the terminal failed state (so
PublishNotification never executes), and the failed state has no outgoing
step. -/
theorem getter_workflow_two_stage_contract :
    (∀ p ∈ createStateMachines,
      p.2.stages = [Stage.CallBackend, Stage.PublishNotification]) ∧
    (∀ (backend : Option CallResult) (m : NotificationMessage),
      Relation.ReflTransGen (WfStep backend) .start (.completed m) →
      ∃ r, backend = some r ∧ formatMessage r = .ok m) ∧
    (∀ st, Relation.ReflTransGen (WfStep none) .start st →
      st = .start ∨ st = .failed) ∧
    (∀ (backend : Option CallResult) (st : WfState),
      ¬ WfStep backend .failed st) := by
  refine ⟨by decide, ?_, ?_, ?_⟩
  · intro backend m h
    rcases h.cases_tail with heq | ⟨c, hc, hstep⟩
    · exact absurd heq (by simp)
    · cases hstep with
      | publishOk r m hfmt =>
          rcases hc.cases_tail with heq2 | ⟨d, hd, hstep2⟩
          · exact absurd heq2 (by simp)
          · cases hstep2 with
            | callOk r hb => exact ⟨r, hb, hfmt⟩
  · intro st h
    induction h with
    | refl => exact Or.inl rfl
    | tail hab hbc ih =>
        rcases ih with rfl | rfl
        · cases hbc with
          | callOk r hb => exact absurd hb (by simp)
          | callFailed hb => exact Or.inr rfl
        · cases hbc
  · intro backend st h
    cases h

/-- Witness for claim C2: the GetInfo machine carries the two-stage chain; a
failing backend call reaches the terminal failed state, which satisfies the
reachability bound; and the failed state steps nowhere. -/
theorem getter_workflow_two_stage_contract_witness :
    getterChain.stages = [Stage.CallBackend, Stage.PublishNotification] ∧
    (WfState.failed = WfState.start ∨ WfState.failed = WfState.failed) ∧
    ¬ WfStep none WfState.failed WfState.start :=
  ⟨getter_workflow_two_stage_contract.1 ("GetInfo", getterChain) (by decide),
   getter_workflow_two_stage_contract.2.2.1 .failed
     (Relation.ReflTransGen.single (WfStep.callFailed rfl)),
   getter_workflow_two_stage_contract.2.2.2 none .start⟩

/-- Claim C3: for every backend call result carrying a status code, status
text, body, and a non-empty Date header list, the sink adapter produces the
message with exactly the four fields date (the first element of the Date
header), responseBody, statusCode and statusText; when any of these required
fields is absent it fails with `MalformedResult`, produces no message, and
the workflow cannot take a publish step to a completed state. -/
theorem formatMessage_contract (r : CallResult) :
    (∀ (d : String) (ds : List String) (b : String) (sc : Int) (st : String),
      lookupHeader r.headers "Date" = some (d :: ds) →
      r.responseBody = some b → r.statusCode = some sc →
      r.statusText = some st →
      formatMessage r = .ok ⟨d, b, sc, st⟩) ∧
    ((lookupHeader r.headers "Date" = none ∨
      lookupHeader r.headers "Date" = some [] ∨
      r.responseBody = none ∨ r.statusCode = none ∨ r.statusText = none) →
      formatMessage r = .error .MalformedResult ∧
      ∀ m : NotificationMessage, formatMessage r ≠ .ok m ∧
        ∀ backend : Option CallResult,
          ¬ WfStep backend (.callSucceeded r) (.completed m)) := by
  constructor
  · intro d ds b sc st h1 h2 h3 h4
    simp [formatMessage, h1, h2, h3, h4]
  · intro hmiss
    have herr : formatMessage r = .error .MalformedResult := by
      cases hd : lookupHeader r.headers "Date" with
      | none => simp [formatMessage, hd]
      | some l =>
          cases l with
          | nil => simp [formatMessage, hd]
          | cons d ds =>
              rcases hmiss with h | h | h | h | h
              · rw [h] at hd; simp at hd
              · rw [h] at hd; simp at hd
              · simp [formatMessage, hd, h]
              · cases hb : r.responseBody <;>
                  simp [formatMessage, hd, h, hb]
              · cases hb : r.responseBody <;> cases hsc : r.statusCode <;>
                  simp [formatMessage, hd, h, hb, hsc]
    refine ⟨herr, ?_⟩
    intro m
    constructor
    · rw [herr]; simp
    · intro backend hstep
      cases hstep with
      | publishOk r m hfmt => rw [herr] at hfmt; exact absurd hfmt (by simp)

/-- Witness for claim C3: a complete 200 result formats to the full message;
the same result with its status code absent fails with `MalformedResult` and
admits no publish step. -/
theorem formatMessage_contract_witness :
    formatMessage ⟨some 200, some "OK", some "ok-body",
      [("Date", ["Mon, 01 Jan 2024"])]⟩ =
      .ok ⟨"Mon, 01 Jan 2024", "ok-body", 200, "OK"⟩ ∧
    (formatMessage ⟨none, some "OK", some "ok-body",
      [("Date", ["Mon, 01 Jan 2024"])]⟩ = .error .MalformedResult ∧
     ∀ m : NotificationMessage,
       formatMessage ⟨none, some "OK", some "ok-body",
         [("Date", ["Mon, 01 Jan 2024"])]⟩ ≠ .ok m ∧
       ∀ backend : Option CallResult,
         ¬ WfStep backend
           (.callSucceeded ⟨none, some "OK", some "ok-body",
             [("Date", ["Mon, 01 Jan 2024"])]⟩) (.completed m)) :=
  ⟨(formatMessage_contract ⟨some 200, some "OK", some "ok-body",
      [("Date", ["Mon, 01 Jan 2024"])]⟩).1
      "Mon, 01 Jan 2024" [] "ok-body" 200 "OK" rfl rfl rfl rfl,
   (formatMessage_contract ⟨none, some "OK", some "ok-body",
      [("Date", ["Mon, 01 Jan 2024"])]⟩).2
      (Or.inr (Or.inr (Or.inr (Or.inl rfl))))⟩

end CdkQuiltFargate
